import Mathlib

/-!
Verification development for cncPathPreview (src/cncpathpreview.py).

The G-code analyzer is embedded shallowly:

* Python floats are modelled by real numbers; decimal literals parsed from
  the input are exact rationals that are cast into the reals where the
  geometry happens.
* Python exceptions are modelled by an explicit error type threaded through
  the computation with Except: an uncaught exception is a result of the form
  Except.error that propagates to the entry point.
* Python round() is round-half-to-even; int() truncates toward zero; both are
  modelled explicitly below.
* Python truthiness matters in two places of the source and is modelled
  bit-for-bit: is_move tests the raw integer returned by str.find for two of
  its four tokens, and handle_coordinate_shift tests the parsed axis value
  itself (so None and 0.0 are both skipped).
* Lists of three floats are modelled as triples of reals.
-/

/-- Python exceptions that the analyzed program can raise. -/
inductive PyErr where
  /-- float() conversion failure; the payload is the offending text. -/
  | valueError (msg : String)
  /-- Unsupported operand type, e.g. None ** 2. -/
  | typeError
  /-- math.acos applied outside the interval from -1 to 1. -/
  | mathDomainError
  /-- min() or max() applied to an empty sequence. -/
  | minMaxEmpty
  deriving DecidableEq

deriving instance DecidableEq for Except

/-- A fully resolved coordinate, list [x, y, z] of floats in the source. -/
abbrev Point := ℝ × ℝ × ℝ

/-- The parse result of one command line: the five optional axis values
[X, Y, Z, I, J] (list indices 0..4 in the source). -/
structure PartialPoint where
  x : Option ℚ
  y : Option ℚ
  z : Option ℚ
  i : Option ℚ
  j : Option ℚ
  deriving DecidableEq

/-! ### Python string primitives -/

/-- Does the pattern (second argument) occur at the head of the list? -/
def startsWithL : List Char → List Char → Bool
  | _, [] => true
  | [], _ :: _ => false
  | a :: as, b :: bs => a == b && startsWithL as bs

/-- Scan for the pattern, carrying the index of the current head. -/
def findFrom (pat : List Char) : List Char → ℤ → ℤ
  | [], idx => if startsWithL [] pat then idx else -1
  | c :: t, idx => if startsWithL (c :: t) pat then idx else findFrom pat t (idx + 1)

/-- Python str.find: first index of the pattern, or -1 when absent. -/
def findL (hay pat : List Char) : ℤ := findFrom pat hay 0

/-- Python str.find on strings. -/
def pyFind (hay pat : String) : ℤ := findL hay.toList pat.toList

/-- Python str.strip(chars): remove the given characters from both ends. -/
def pyStrip (t : List Char) (cs : List Char) : List Char :=
  ((t.dropWhile (fun c => cs.contains c)).reverse.dropWhile
    (fun c => cs.contains c)).reverse

/-- Python str.split(sep) for a single-character separator: consecutive
separators produce empty fields, as in line.split of the source. -/
def splitOnChar (sep : Char) : List Char → List (List Char)
  | [] => [[]]
  | c :: t =>
    match splitOnChar sep t with
    | [] => [[]]
    | h :: r => if c = sep then [] :: h :: r else (c :: h) :: r

/-- Python str.strip() with no argument: trim whitespace from both ends. -/
def trimWs (l : List Char) : List Char :=
  ((l.dropWhile Char.isWhitespace).reverse.dropWhile Char.isWhitespace).reverse

/-- The strip() applied to each raw input line of the file. -/
def pyStripLine (s : String) : String := ⟨trimWs s.toList⟩

/-! ### Python float() on decimal literals -/

/-- Numeric value of a digit string, most significant first. -/
def digitsVal (l : List Char) : ℕ := l.foldl (fun a c => 10 * a + (c.toNat - 48)) 0

/-- Value of an unsigned decimal literal: digits with an optional single
decimal point, at least one digit overall. -/
def parseUnsigned (body : List Char) : Option ℚ :=
  let ip := body.takeWhile Char.isDigit
  let rest := body.drop ip.length
  match rest with
  | [] => if ip.isEmpty then none else some (mkRat (digitsVal ip) 1)
  | '.' :: fp =>
    if fp.all Char.isDigit && !(ip.isEmpty && fp.isEmpty) then
      some (mkRat (digitsVal ip * 10 ^ fp.length + digitsVal fp) (10 ^ fp.length))
    else none
  | _ => none

/-- Python float() on the plain signed decimal literals that G-code uses;
any other text raises ValueError carrying the offending text (the message of
the Python exception names exactly this text). -/
def pyFloat (t : List Char) : Except PyErr ℚ :=
  let r := match t with
    | '+' :: body => parseUnsigned body
    | '-' :: body => (parseUnsigned body).map (fun q => -q)
    | body => parseUnsigned body
  match r with
  | some q => .ok q
  | none => .error (.valueError (String.mk t))

/-! ### Line classification (source lines 4-28) -/

/-- Truthiness of the expression in is_move:
(find('G00') > -1 or find('G0 ') or find('G01') > -1) or find('G1 ').
The second and fourth operands lack the comparison with -1, so any nonzero
index, including the not-found value -1, counts as true. -/
def is_move (command : String) : Bool :=
  if command ≠ "" then
    decide (pyFind command "G00" > -1) || decide (pyFind command "G0 " ≠ 0) ||
      decide (pyFind command "G01" > -1) || decide (pyFind command "G1 " ≠ 0)
  else false

/-- Checks for the arc tokens; all four comparisons are written out. -/
def is_arc (command : String) : Bool :=
  if command ≠ "" then
    decide (pyFind command "G02" > -1) || decide (pyFind command "G03" > -1) ||
      decide (pyFind command "G2 " > -1) || decide (pyFind command "G3 " > -1)
  else false

/-- Checks for the coordinate-shift token G92. -/
def is_coordinate_shift (command : String) : Bool :=
  if command ≠ "" then decide (pyFind command "G92" > -1) else false

/-! ### parse_coordinates (source lines 30-47) -/

/-- One token of a move command: the five independent axis tests of the
source, executed in order X, Y, Z, I, J, each converting the stripped token
with float() (which may raise). -/
def parseToken (c0 : PartialPoint) (value : List Char) : Except PyErr PartialPoint :=
  let u := fun (cur : Except PyErr PartialPoint) (ax : Char)
      (set : PartialPoint → ℚ → PartialPoint) =>
    match cur with
    | .error e => .error e
    | .ok c =>
      if findL value [ax] > -1 then
        match pyFloat (pyStrip value [ax, ' ']) with
        | .error e => .error e
        | .ok v => .ok (set c v)
      else .ok c
  u (u (u (u (u (.ok c0) 'X' (fun c v => { c with x := some v }))
            'Y' (fun c v => { c with y := some v }))
          'Z' (fun c v => { c with z := some v }))
      'I' (fun c v => { c with i := some v }))
    'J' (fun c v => { c with j := some v })

/-- Fold of parseToken over the tokens, stopping at the first exception. -/
def parseTokens : List (List Char) → PartialPoint → Except PyErr PartialPoint
  | [], c => .ok c
  | v :: vs, c =>
    match parseToken c v with
    | .error e => .error e
    | .ok c' => parseTokens vs c'

/-- Reads a move command into the five optional axis values. -/
def parse_coordinates (line : String) : Except PyErr PartialPoint :=
  parseTokens (splitOnChar ' ' line.toList) ⟨none, none, none, none, none⟩

/-! ### Python numeric primitives on reals -/

/-- Python round() to zero decimals: round half to even. -/
noncomputable def pyRound (x : ℝ) : ℤ :=
  let f := ⌊x⌋
  let d := x - f
  if d < 1/2 then f
  else if 1/2 < d then f + 1
  else if 2 ∣ f then f else f + 1

/-- Python round(x, 3), as a real number. -/
noncomputable def pyRound3 (x : ℝ) : ℝ := ((pyRound (x * 1000) : ℤ) : ℝ) / 1000

/-- Python round(x, 0): a whole number, still of float type in the source. -/
noncomputable def pyRound0 (x : ℝ) : ℝ := ((pyRound x : ℤ) : ℝ)

/-- Python int() on a float: truncation toward zero. -/
noncomputable def pyInt (x : ℝ) : ℤ := if x < 0 then -⌊-x⌋ else ⌊x⌋

/-! ### Geometry core (source lines 50-150) -/

/-- Column access into a coordinate triple, list indexing in the source. -/
noncomputable def col (p : Point) (ci : ℕ) : ℝ :=
  match ci with
  | 0 => p.1
  | 1 => p.2.1
  | _ => p.2.2

/-- Index and key of the first element attaining the minimal key, the element
Python min(data, key=...) returns (min keeps the earliest of equal keys);
none on the empty list, where Python raises ValueError. -/
noncomputable def idxMinBy (key : Point → ℝ) : List Point → Option (ℕ × ℝ)
  | [] => none
  | p :: t =>
    match idxMinBy key t with
    | none => some (0, key p)
    | some (k, v) => if v < key p then some (k + 1, v) else some (0, key p)

/-- Index and key of the first element attaining the maximal key, the element
Python max(data, key=...) returns. -/
noncomputable def idxMaxBy (key : Point → ℝ) : List Point → Option (ℕ × ℝ)
  | [] => none
  | p :: t =>
    match idxMaxBy key t with
    | none => some (0, key p)
    | some (k, v) => if key p < v then some (k + 1, v) else some (0, key p)

/-- max(data, key=lambda x: x[column_index]). -/
noncomputable def get_max_by_column (data : List Point) (column_index : ℕ) :
    Except PyErr Point :=
  match idxMaxBy (fun p => col p column_index) data with
  | none => .error .minMaxEmpty
  | some (k, _) => .ok ((data.get? k).getD (0, 0, 0))

/-- min(data, key=lambda x: x[column_index]). -/
noncomputable def get_min_by_column (data : List Point) (column_index : ℕ) :
    Except PyErr Point :=
  match idxMinBy (fun p => col p column_index) data with
  | none => .error .minMaxEmpty
  | some (k, _) => .ok ((data.get? k).getD (0, 0, 0))

/-- get_arc_degrees: guard on non-positive radius, cosine rounded to three
decimals, acos (which raises a math domain error outside the interval from
-1 to 1: the source does not clamp), reflection below the center, conversion
to degrees rounded to a whole number. -/
noncomputable def get_arc_degrees (coordinates arc_center : ℝ × ℝ) (radius : ℝ) :
    Except PyErr ℝ :=
  if radius ≤ 0 then .ok 0
  else
    let co := pyRound3 ((coordinates.1 - arc_center.1) / radius)
    if co < -1 ∨ 1 < co then .error .mathDomainError
    else
      let rad := Real.arccos co
      let rad2 := if coordinates.2 - arc_center.2 < 0 then 2 * Real.pi - rad else rad
      .ok (pyRound0 (rad2 * 180 / Real.pi))

/-- fill_coordinates on the three XYZ slots: a missing value is held from the
previous coordinates, a present one gets the shift added. -/
noncomputable def fill_coordinates (part : PartialPoint) (previous shift : Point) :
    Point :=
  (match part.x with
    | none => previous.1
    | some v => (v : ℝ) + shift.1,
   match part.y with
    | none => previous.2.1
    | some v => (v : ℝ) + shift.2.1,
   match part.z with
    | none => previous.2.2
    | some v => (v : ℝ) + shift.2.2)

/-- handle_coordinate_shift: for each XYZ slot the source tests the parsed
value itself, so both a missing axis (None) and an explicit zero are skipped;
a present nonzero value v turns shift[i] into shift[i] - v. -/
noncomputable def handle_coordinate_shift (line : String) (shift : Point) :
    Except PyErr Point :=
  match parse_coordinates line with
  | .error e => .error e
  | .ok css =>
    .ok
      (match css.x with
        | some v => if v ≠ 0 then shift.1 - (v : ℝ) else shift.1
        | none => shift.1,
       match css.y with
        | some v => if v ≠ 0 then shift.2.1 - (v : ℝ) else shift.2.1
        | none => shift.2.1,
       match css.z with
        | some v => if v ≠ 0 then shift.2.2 - (v : ℝ) else shift.2.2
        | none => shift.2.2)

/-- handle_linear_move: parse, fill, return the XYZ triple. -/
noncomputable def handle_linear_move (line : String) (previous shift : Point) :
    Except PyErr Point :=
  match parse_coordinates line with
  | .error e => .error e
  | .ok part => .ok (fill_coordinates part previous shift)

/-- extremevalue_order[int(crossing_angle / 90)]: the cardinal point of the
circle for each crossing angle (index 0 of the source list is never read). -/
noncomputable def cardinal_point (x_center y_center radius z : ℝ) (a : ℤ) : Point :=
  if a = 90 then (x_center, y_center + radius, z)
  else if a = 180 then (x_center - radius, y_center, z)
  else if a = 270 then (x_center, y_center - radius, z)
  else (x_center + radius, y_center, z)

/-- The loop over crossing angles 90, 180, 270, 360 of handle_arc_move_ij:
an angle qualifies when it lies in range(int(arc_start), int(arc_end)). -/
noncomputable def arc_cardinal_points (arc_start arc_end : ℝ)
    (x_center y_center radius z : ℝ) : List Point :=
  (([90, 180, 270, 360] : List ℤ).filter
      (fun a => decide (pyInt arc_start ≤ a ∧ a < pyInt arc_end))).map
    (cardinal_point x_center y_center radius z)

/-- handle_arc_move_ij: parse and fill, radius from the I/J offsets (a missing
offset is None and None ** 2 raises TypeError), center from the previous point
plus the offsets, start/end angles by direction token, wraparound when the
difference of the already rounded angles is negative, qualifying cardinal
points followed by the endpoint; a line with neither a CW nor a CCW token
returns the empty list. -/
noncomputable def handle_arc_move_ij (line : String) (previous shift : Point) :
    Except PyErr (List Point) :=
  match parse_coordinates line with
  | .error e => .error e
  | .ok part =>
    match part.i, part.j with
    | some i0, some j0 =>
      let coords := fill_coordinates part previous shift
      let radius := Real.sqrt ((i0 : ℝ) ^ 2 + (j0 : ℝ) ^ 2)
      let x_center := previous.1 + (i0 : ℝ)
      let y_center := previous.2.1 + (j0 : ℝ)
      let angles : Except PyErr (Option (ℝ × ℝ)) :=
        if pyFind line "G02" > -1 ∨ pyFind line "G2 " > -1 then
          match get_arc_degrees (coords.1, coords.2.1) (x_center, y_center) radius,
              get_arc_degrees (previous.1, previous.2.1) (x_center, y_center) radius with
          | .ok s, .ok e => .ok (some (s, e))
          | .error er, _ => .error er
          | _, .error er => .error er
        else if pyFind line "G03" > -1 ∨ pyFind line "G3 " > -1 then
          match get_arc_degrees (previous.1, previous.2.1) (x_center, y_center) radius,
              get_arc_degrees (coords.1, coords.2.1) (x_center, y_center) radius with
          | .ok s, .ok e => .ok (some (s, e))
          | .error er, _ => .error er
          | _, .error er => .error er
        else .ok none
      match angles with
      | .error er => .error er
      | .ok none => .ok []
      | .ok (some (arc_start, arc_end0)) =>
        let arc_end := if arc_end0 - arc_start < 0 then arc_end0 + 360 else arc_end0
        .ok (arc_cardinal_points arc_start arc_end x_center y_center radius
              coords.2.2 ++ [coords])
    | _, _ => .error PyErr.typeError

/-! ### create_dataset_from_input (source lines 152-175) -/

/-- One iteration of the line loop: strip, dispatch on the classifiers (in
the order of the source, so is_move shadows the other branches), append the
produced points, then refresh previous_coordinates from data[-1] when data is
nonempty. The inner test on lines in the source is always true inside the loop. -/
noncomputable def processLine (st : List Point × Point × Point) (line0 : String) :
    Except PyErr (List Point × Point × Point) :=
  let data := st.1
  let previous := st.2.1
  let shift := st.2.2
  let line := pyStripLine line0
  let step : Except PyErr (List Point × Point) :=
    if is_move line then
      match handle_linear_move line previous shift with
      | .error e => .error e
      | .ok p => .ok (data ++ [p], shift)
    else if is_arc line then
      match handle_arc_move_ij line previous shift with
      | .error e => .error e
      | .ok ev => .ok (data ++ ev, shift)
    else if is_coordinate_shift line then
      match handle_coordinate_shift line shift with
      | .error e => .error e
      | .ok s => .ok (data, s)
    else .ok (data, shift)
  match step with
  | .error e => .error e
  | .ok (data', shift') =>
    .ok (data', (match data'.getLast? with | some p => p | none => previous), shift')

/-- The fold of processLine over the lines, stopping at the first uncaught
exception. -/
noncomputable def datasetLoop :
    List String → List Point × Point × Point → Except PyErr (List Point × Point × Point)
  | [], st => .ok st
  | l :: ls, st =>
    match processLine st l with
    | .error e => .error e
    | .ok st' => datasetLoop ls st'

/-- create_dataset_from_input on the already materialized list of lines
(reading the file is external): previous coordinates and shift both start at
the origin. -/
noncomputable def create_dataset_from_input (lines : List String) :
    Except PyErr (List Point) :=
  match datasetLoop lines ([], ((0 : ℝ), (0 : ℝ), (0 : ℝ)), ((0 : ℝ), (0 : ℝ), (0 : ℝ))) with
  | .error e => .error e
  | .ok st => .ok st.1

/-! ### get_extreme_value (source lines 200-224) and the safety height -/

/-- What get_extreme_value hands back to its caller: the advisory Zmin value,
or the rounded coordinates of the selected waypoint (their rendering into
strings is textual output and stays outside the embedding). -/
inductive ExtremeOut where
  | zminMsg (zmin : ℝ)
  | coords (x y z : ℝ)

/-- Overwrite the z slot of the element at the given index, leaving the rest
of the list as it is: the effect of result[2] = zsafety on the list object
inside data that min/max returned. -/
noncomputable def setPointZ : List Point → ℕ → ℝ → List Point
  | [], _, _ => []
  | p :: t, 0, z => (p.1, p.2.1, z) :: t
  | p :: t, n + 1, z => p :: setPointZ t n z

/-- get_extreme_value. For Zmin the data is only read. For the four X/Y
extremes the source rebinds result to the list object inside data that
min/max returned and then assigns result[2] = zsafety, mutating that point
in place; the second component of the returned pair is the data list after
this mutation. An unrecognized axis mutates only the local [0, 0, 0]. -/
noncomputable def get_extreme_value (axis : String) (data : List Point)
    (zsafety : ℝ) : Except PyErr (ExtremeOut × List Point) :=
  if axis = "Zmin" then
    match get_min_by_column data 2 with
    | .error e => .error e
    | .ok p => .ok (ExtremeOut.zminMsg (pyRound3 p.2.2), data)
  else
    let pick : Except PyErr (Option ℕ) :=
      if axis = "Ymin" then
        match idxMinBy (fun p => col p 1) data with
        | some kv => .ok (some kv.1)
        | none => .error .minMaxEmpty
      else if axis = "Xmin" then
        match idxMinBy (fun p => col p 0) data with
        | some kv => .ok (some kv.1)
        | none => .error .minMaxEmpty
      else if axis = "Ymax" then
        match idxMaxBy (fun p => col p 1) data with
        | some kv => .ok (some kv.1)
        | none => .error .minMaxEmpty
      else if axis = "Xmax" then
        match idxMaxBy (fun p => col p 0) data with
        | some kv => .ok (some kv.1)
        | none => .error .minMaxEmpty
      else .ok none
    match pick with
    | .error e => .error e
    | .ok none => .ok (ExtremeOut.coords (pyRound3 0) (pyRound3 0) (pyRound3 zsafety), data)
    | .ok (some k) =>
      let p := (data.get? k).getD (0, 0, 0)
      .ok (ExtremeOut.coords (pyRound3 p.1) (pyRound3 p.2.1) (pyRound3 zsafety),
           setPointZ data k zsafety)

/-- convert_input_zsafety; the boolean records whether the invalid-height
diagnostic is emitted. -/
noncomputable def convert_input_zsafety (zsafety : ℝ) : ℝ × Bool :=
  let z := pyRound0 zsafety
  if z ≤ 0 then (25, true) else (z, false)

/-- Specification-side angle function, for comparison with the code: the
spec, section 4.3 step 2, prescribes clamp((p.x - c.x) / radius, -1, 1),
arccos in degrees, reflected to 360 - a below the center, with no rounding
anywhere. -/
noncomputable def angle_spec (p c : ℝ × ℝ) (radius : ℝ) : ℝ :=
  let cl := max (-1) (min 1 ((p.1 - c.1) / radius))
  let a := Real.arccos cl * 180 / Real.pi
  if p.2 - c.2 < 0 then 360 - a else a

/-! ### Arithmetic facts about the Python rounding primitives -/

/-- The round-half-to-even function agrees with the floor on the lower half
of an integer step. -/
theorem pyRound_eq_of_lt_half (n : ℤ) (x : ℝ) (h1 : (n : ℝ) ≤ x) (h2 : x < n + 1/2) :
    pyRound x = n := by
  have hf : ⌊x⌋ = n := by
    rw [Int.floor_eq_iff]
    constructor
    · exact h1
    · linarith
  simp only [pyRound, hf]
  rw [if_pos]
  linarith

/-- The round-half-to-even function rounds up on the upper half of an
integer step. -/
theorem pyRound_eq_of_gt_half (n : ℤ) (x : ℝ) (h1 : (n : ℝ) + 1/2 < x) (h2 : x < n + 1) :
    pyRound x = n + 1 := by
  have hf : ⌊x⌋ = n := by
    rw [Int.floor_eq_iff]
    constructor
    · linarith
    · linarith
  simp only [pyRound, hf]
  rw [if_neg (by linarith), if_pos (by linarith)]

/-- Rounding a whole number is the identity. -/
theorem pyRound_intCast (n : ℤ) : pyRound ((n : ℤ) : ℝ) = n := by
  apply pyRound_eq_of_lt_half <;> norm_num

/-- The rounded value differs from the input by at most one half. -/
theorem abs_pyRound_sub_le (x : ℝ) : |((pyRound x : ℤ) : ℝ) - x| ≤ 1/2 := by
  have h1 : (⌊x⌋ : ℝ) ≤ x := Int.floor_le x
  have h2 : x < ⌊x⌋ + 1 := Int.lt_floor_add_one x
  simp only [pyRound]
  split_ifs with hd1 hd2 hd3 <;> rw [abs_le] <;> constructor <;> push_cast <;> linarith

/-- Truncation toward zero of a whole number is the identity. -/
theorem pyInt_intCast (n : ℤ) : pyInt ((n : ℤ) : ℝ) = n := by
  simp only [pyInt]
  split_ifs with h
  · rw [← Int.cast_neg, Int.floor_intCast]
    ring
  · rw [Int.floor_intCast]

/-- Truncation of the real zero. -/
theorem pyInt_zero : pyInt ((0 : ℝ)) = 0 := by
  have := pyInt_intCast 0
  simpa using this

/-- Unfolding of pyRound0 once the integer value of the round is known. -/
theorem pyRound0_eval (x : ℝ) (n : ℤ) (h : pyRound x = n) : pyRound0 x = (n : ℝ) := by
  simp only [pyRound0, h]

/-- Evaluation of get_arc_degrees on a positive radius once the rounded
cosine is known to stay inside the acos domain. -/
theorem get_arc_degrees_eval (pt c : ℝ × ℝ) (r co : ℝ)
    (hr : 0 < r) (hco : pyRound3 ((pt.1 - c.1) / r) = co)
    (hlo : -1 ≤ co) (hhi : co ≤ 1) :
    get_arc_degrees pt c r =
      .ok (pyRound0 ((if pt.2 - c.2 < 0 then 2 * Real.pi - Real.arccos co
                      else Real.arccos co) * 180 / Real.pi)) := by
  simp only [get_arc_degrees, hco]
  rw [if_neg (by linarith), if_neg (by push_neg; constructor <;> linarith)]

/-- With both angles zero no crossing angle qualifies. -/
theorem arc_cardinal_points_zero (xc yc r z : ℝ) :
    arc_cardinal_points 0 0 xc yc r z = [] := by
  simp [arc_cardinal_points, pyInt_zero]

/-- The degenerate guard of get_arc_degrees. -/
theorem get_arc_degrees_zero_radius (pt c : ℝ × ℝ) : get_arc_degrees pt c 0 = .ok 0 := by
  simp [get_arc_degrees]

/-- An arc line whose I and J offsets are both zero has radius zero, both
angles zero, and so contributes exactly its filled endpoint. -/
theorem handle_arc_zero_offsets (line : String) (previous shift : Point)
    (part : PartialPoint) (hp : parse_coordinates line = .ok part)
    (hi : part.i = some 0) (hj : part.j = some 0)
    (hdir : (pyFind line "G02" > -1 ∨ pyFind line "G2 " > -1) ∨
      (pyFind line "G03" > -1 ∨ pyFind line "G3 " > -1)) :
    handle_arc_move_ij line previous shift = .ok [fill_coordinates part previous shift] := by
  have hrad : Real.sqrt (((0 : ℚ) : ℝ) ^ 2 + ((0 : ℚ) : ℝ) ^ 2) = 0 := by
    push_cast
    simp
  simp only [handle_arc_move_ij, hp, hi, hj, hrad]
  by_cases hcw : pyFind line "G02" > -1 ∨ pyFind line "G2 " > -1
  · rw [if_pos hcw]
    simp only [get_arc_degrees_zero_radius]
    rw [if_neg (by norm_num)]
    simp [arc_cardinal_points_zero]
  · rw [if_neg hcw, if_pos (hdir.resolve_left hcw)]
    simp only [get_arc_degrees_zero_radius]
    rw [if_neg (by norm_num)]
    simp [arc_cardinal_points_zero]

/-! ### Claim theorems -/

/-- Claim C1 (code bug): the line X10 Y20 carries no motion token, yet
is_move is truthy on it (the source omits the comparison with -1 on two of
its find calls, making is_move truthy on every non-empty line), so
create_dataset_from_input treats it as a linear move and emits the point
(10, 20, 0) instead of ignoring the line. -/
theorem C1_coordinate_only_line_emits_point : is_move "X10 Y20" = true ∧
    create_dataset_from_input ["X10 Y20"] = .ok [((10 : ℝ), (20 : ℝ), (0 : ℝ))] := by
  constructor
  · decide
  · have hstrip : pyStripLine "X10 Y20" = "X10 Y20" := by decide
    have hmove : is_move "X10 Y20" = true := by decide
    have h1 : parse_coordinates "X10 Y20" = .ok ⟨some 10, some 20, none, none, none⟩ := by
      decide
    have hfill : fill_coordinates ⟨some 10, some 20, none, none, none⟩
        ((0 : ℝ), (0 : ℝ), (0 : ℝ)) ((0 : ℝ), (0 : ℝ), (0 : ℝ)) = (10, 20, 0) := by
      simp [fill_coordinates]
    simp only [create_dataset_from_input, datasetLoop, processLine, hstrip, hmove,
      handle_linear_move, h1, hfill]
    simp

/-- Claim C2 (code bug): the full-circle arc G02 X10 Y0 I-10 J0 from
previous position (10, 0, 0) yields only the endpoint, not the four cardinal
points plus the endpoint: both angles evaluate to 0, the wraparound applies
only to a strictly negative difference, and range(0, 0) is empty. -/
theorem C2_full_circle_emits_only_endpoint :
    handle_arc_move_ij "G02 X10 Y0 I-10 J0" ((10 : ℝ), (0 : ℝ), (0 : ℝ))
      ((0 : ℝ), (0 : ℝ), (0 : ℝ)) = .ok [((10 : ℝ), (0 : ℝ), (0 : ℝ))] := by
  have h1 : parse_coordinates "G02 X10 Y0 I-10 J0" =
      .ok ⟨some 10, some 0, none, some (-10), some 0⟩ := by decide
  have hd : pyFind "G02 X10 Y0 I-10 J0" "G02" > -1 ∨
      pyFind "G02 X10 Y0 I-10 J0" "G2 " > -1 := Or.inl (by decide)
  have hfill : fill_coordinates ⟨some 10, some 0, none, some (-10), some 0⟩
      ((10 : ℝ), (0 : ℝ), (0 : ℝ)) ((0 : ℝ), (0 : ℝ), (0 : ℝ)) = (10, 0, 0) := by
    simp [fill_coordinates]
  have hrad : Real.sqrt ((((-10 : ℚ) : ℝ)) ^ 2 + (((0 : ℚ) : ℝ)) ^ 2) = 10 := by
    push_cast
    rw [show ((-10 : ℝ)) ^ 2 + (0 : ℝ) ^ 2 = 10 ^ 2 by norm_num]
    exact Real.sqrt_sq (by norm_num)
  have hcx : (10 : ℝ) + ((-10 : ℚ) : ℝ) = 0 := by push_cast; ring
  have hcy : (0 : ℝ) + ((0 : ℚ) : ℝ) = 0 := by push_cast; ring
  have hco : pyRound3 (((10 : ℝ) - 0) / 10) = 1 := by
    have h : pyRound ((((10 : ℝ) - 0) / 10) * 1000) = 1000 := by
      apply pyRound_eq_of_lt_half <;> norm_num
    simp only [pyRound3, h]
    norm_num
  have hgad : get_arc_degrees ((10 : ℝ), (0 : ℝ)) ((0 : ℝ), (0 : ℝ)) 10 = .ok 0 := by
    rw [get_arc_degrees_eval ((10 : ℝ), (0 : ℝ)) ((0 : ℝ), (0 : ℝ)) 10 1 (by norm_num)
      hco (by norm_num) (by norm_num)]
    rw [if_neg (by norm_num), Real.arccos_one]
    rw [show (0 : ℝ) * 180 / Real.pi = ((0 : ℤ) : ℝ) by simp]
    rw [pyRound0_eval _ 0 (pyRound_intCast 0)]
    norm_num
  simp only [handle_arc_move_ij, h1, hfill, hrad, hcx, hcy]
  rw [if_pos hd]
  simp only [hgad]
  rw [if_neg (by norm_num)]
  simp [arc_cardinal_points_zero]

/-- Claim C3 (code bug): the line G92 X5 is recognized by
is_coordinate_shift, but is_move is also truthy on it and is tested first,
so the pipeline emits the spurious point (5, 0, 0), never updates the shift,
and a subsequent G01 X10 resolves to absolute x = 10 instead of 5. -/
theorem C3_shift_line_misclassified_as_move :
    is_coordinate_shift "G92 X5" = true ∧ is_move "G92 X5" = true ∧
    create_dataset_from_input ["G92 X5", "G01 X10"] =
      .ok [((5 : ℝ), (0 : ℝ), (0 : ℝ)), ((10 : ℝ), (0 : ℝ), (0 : ℝ))] := by
  refine ⟨by decide, by decide, ?_⟩
  have hs1 : pyStripLine "G92 X5" = "G92 X5" := by decide
  have hs2 : pyStripLine "G01 X10" = "G01 X10" := by decide
  have hm1 : is_move "G92 X5" = true := by decide
  have hm2 : is_move "G01 X10" = true := by decide
  have h1 : parse_coordinates "G92 X5" = .ok ⟨some 5, none, none, none, none⟩ := by decide
  have h2 : parse_coordinates "G01 X10" = .ok ⟨some 10, none, none, none, none⟩ := by decide
  simp only [create_dataset_from_input, datasetLoop, processLine, hs1, hs2, hm1, hm2,
    handle_linear_move, h1, h2]
  simp [fill_coordinates]

/-- Claim C5 (corrected): an arc command whose I and J offsets are zero (the
only way the computed radius sqrt(I^2 + J^2) is non-positive) contributes no
cardinal points but still returns its endpoint, not an empty sequence. -/
theorem C5_degenerate_arc_returns_endpoint_only (line : String) (previous shift : Point)
    (part : PartialPoint) (hp : parse_coordinates line = .ok part)
    (hi : part.i = some 0) (hj : part.j = some 0)
    (hdir : (pyFind line "G02" > -1 ∨ pyFind line "G2 " > -1) ∨
      (pyFind line "G03" > -1 ∨ pyFind line "G3 " > -1)) :
    handle_arc_move_ij line previous shift = .ok [fill_coordinates part previous shift] :=
  handle_arc_zero_offsets line previous shift part hp hi hj hdir

/-- Claim C5 counterexample: the degenerate arc G02 X5 Y5 I0 J0 returns the
one-element sequence holding its endpoint, so the result is not the empty
sequence the claim asserts. -/
theorem C5_empty_sequence_counterexample :
    handle_arc_move_ij "G02 X5 Y5 I0 J0" ((0 : ℝ), (0 : ℝ), (0 : ℝ))
        ((0 : ℝ), (0 : ℝ), (0 : ℝ)) = .ok [((5 : ℝ), (5 : ℝ), (0 : ℝ))] ∧
      handle_arc_move_ij "G02 X5 Y5 I0 J0" ((0 : ℝ), (0 : ℝ), (0 : ℝ))
        ((0 : ℝ), (0 : ℝ), (0 : ℝ)) ≠ .ok ([] : List Point) := by
  have h := handle_arc_zero_offsets "G02 X5 Y5 I0 J0" ((0 : ℝ), (0 : ℝ), (0 : ℝ))
    ((0 : ℝ), (0 : ℝ), (0 : ℝ)) ⟨some 5, some 5, none, some 0, some 0⟩ (by decide) rfl rfl
    (Or.inl (Or.inl (by decide)))
  have hfill : fill_coordinates ⟨some 5, some 5, none, some 0, some 0⟩
      ((0 : ℝ), (0 : ℝ), (0 : ℝ)) ((0 : ℝ), (0 : ℝ), (0 : ℝ)) = (5, 5, 0) := by
    simp [fill_coordinates]
  rw [hfill] at h
  exact ⟨h, by rw [h]; simp⟩

/-- Claim C5 witness: the amended statement applied to G02 X5 Y5 I0 J0. -/
theorem C5_witness :
    parse_coordinates "G02 X5 Y5 I0 J0" = .ok ⟨some 5, some 5, none, some 0, some 0⟩ ∧
    handle_arc_move_ij "G02 X5 Y5 I0 J0" ((0 : ℝ), (0 : ℝ), (0 : ℝ))
        ((0 : ℝ), (0 : ℝ), (0 : ℝ)) =
      .ok [fill_coordinates ⟨some 5, some 5, none, some 0, some 0⟩
        ((0 : ℝ), (0 : ℝ), (0 : ℝ)) ((0 : ℝ), (0 : ℝ), (0 : ℝ))] :=
  ⟨by decide, C5_degenerate_arc_returns_endpoint_only "G02 X5 Y5 I0 J0"
    ((0 : ℝ), (0 : ℝ), (0 : ℝ)) ((0 : ℝ), (0 : ℝ), (0 : ℝ))
    ⟨some 5, some 5, none, some 0, some 0⟩ (by decide) rfl rfl (Or.inl (Or.inl (by decide)))⟩

/-- Claim C9 (confirmed): on an arc command line in which the I or the J
token is absent, the parsed offset stays None, so the radius computation of
handle_arc_move_ij raises TypeError, which nothing catches; the line is
neither skipped nor reported as a data-format error. -/
theorem C9_missing_offset_raises_typeerror (line : String) (previous shift : Point)
    (part : PartialPoint) (hp : parse_coordinates line = .ok part)
    (_harc : is_arc line = true) (hij : part.i = none ∨ part.j = none) :
    handle_arc_move_ij line previous shift = .error PyErr.typeError := by
  simp only [handle_arc_move_ij, hp]
  rcases hij with h | h
  · simp [h]
  · cases hpi : part.i <;> simp [h, hpi]

/-- Claim C9 witness: the arc line G02 X5 Y5 parses with both offsets absent
and makes the resolver raise TypeError. -/
theorem C9_witness :
    parse_coordinates "G02 X5 Y5" = .ok ⟨some 5, some 5, none, none, none⟩ ∧
    is_arc "G02 X5 Y5" = true ∧
    handle_arc_move_ij "G02 X5 Y5" ((0 : ℝ), (0 : ℝ), (0 : ℝ))
      ((0 : ℝ), (0 : ℝ), (0 : ℝ)) = .error PyErr.typeError :=
  ⟨by decide, by decide,
    C9_missing_offset_raises_typeerror "G02 X5 Y5" ((0 : ℝ), (0 : ℝ), (0 : ℝ))
      ((0 : ℝ), (0 : ℝ), (0 : ℝ)) ⟨some 5, some 5, none, none, none⟩
      (by decide) (by decide) (Or.inl rfl)⟩

/-- Claim C6 (corrected): a non-numeric axis value raises a ValueError whose
payload names only the offending token text; the exception propagates
uncaught out of handle_linear_move and out of the whole dataset construction
(a crash), and no default value is substituted. -/
theorem C6_nonnumeric_axis_uncaught_valueerror (previous shift : Point)
    (rest : List String) :
    handle_linear_move "G01 Xabc" previous shift = .error (PyErr.valueError "abc") ∧
    create_dataset_from_input ("G01 Xabc" :: rest) = .error (PyErr.valueError "abc") := by
  have h1 : parse_coordinates "G01 Xabc" = .error (.valueError "abc") := by decide
  have hstrip : pyStripLine "G01 Xabc" = "G01 Xabc" := by decide
  have hmove : is_move "G01 Xabc" = true := by decide
  constructor
  · simp [handle_linear_move, h1]
  · simp [create_dataset_from_input, datasetLoop, processLine, hstrip, hmove,
      handle_linear_move, h1]

/-- Claim C6 counterexample: the error surfaced for G01 Xabc is an uncaught
ValueError carrying only the text abc, which does not contain the offending
line, so the error does not name the line and the run ends in a crash rather
than a handled data-format report. -/
theorem C6_named_line_counterexample :
    create_dataset_from_input ["G01 Xabc"] = .error (PyErr.valueError "abc") ∧
    pyFind "abc" "G01 Xabc" = -1 := by
  have h1 : parse_coordinates "G01 Xabc" = .error (.valueError "abc") := by decide
  have hstrip : pyStripLine "G01 Xabc" = "G01 Xabc" := by decide
  have hmove : is_move "G01 Xabc" = true := by decide
  refine ⟨?_, by decide⟩
  simp [create_dataset_from_input, datasetLoop, processLine, hstrip, hmove,
    handle_linear_move, h1]

/-- Claim C7 (corrected): for a positive radius, whenever the rounded cosine
argument stays inside the interval from -1 to 1 the angle function succeeds
and returns a whole-degree value in the closed interval from 0 to 360; it
does not clamp, and the value 360 is attainable. -/
theorem C7_angle_in_closed_range_without_clamp (p c : ℝ × ℝ) (radius : ℝ)
    (hr : 0 < radius)
    (hlo : -1 ≤ pyRound3 ((p.1 - c.1) / radius))
    (hhi : pyRound3 ((p.1 - c.1) / radius) ≤ 1) :
    ∃ v, get_arc_degrees p c radius = .ok v ∧ 0 ≤ v ∧ v ≤ 360 := by
  refine ⟨_, get_arc_degrees_eval p c radius _ hr rfl hlo hhi, ?_, ?_⟩ <;>
  · have hpi := Real.pi_pos
    have ha1 : 0 ≤ Real.arccos (pyRound3 ((p.1 - c.1) / radius)) := Real.arccos_nonneg _
    have ha2 : Real.arccos (pyRound3 ((p.1 - c.1) / radius)) ≤ Real.pi := Real.arccos_le_pi _
    set rad2 := if p.2 - c.2 < 0 then 2 * Real.pi - Real.arccos (pyRound3 ((p.1 - c.1) / radius))
      else Real.arccos (pyRound3 ((p.1 - c.1) / radius)) with hrad2
    have h2lo : 0 ≤ rad2 := by
      rw [hrad2]
      split_ifs <;> linarith
    have h2hi : rad2 ≤ 2 * Real.pi := by
      rw [hrad2]
      split_ifs <;> linarith
    have hdeglo : 0 ≤ rad2 * 180 / Real.pi := by positivity
    have hdeghi : rad2 * 180 / Real.pi ≤ 360 := by
      rw [div_le_iff₀ hpi]
      nlinarith
    have habs := abs_pyRound_sub_le (rad2 * 180 / Real.pi)
    rw [abs_le] at habs
    simp only [pyRound0]
    · first
      | · have hgt : (-1 : ℝ) < ((pyRound (rad2 * 180 / Real.pi) : ℤ) : ℝ) := by linarith
          have hz : (-1 : ℤ) < pyRound (rad2 * 180 / Real.pi) := by exact_mod_cast hgt
          have : (0 : ℤ) ≤ pyRound (rad2 * 180 / Real.pi) := by omega
          exact_mod_cast this
      | · have hlt : ((pyRound (rad2 * 180 / Real.pi) : ℤ) : ℝ) < 361 := by linarith
          have hz : pyRound (rad2 * 180 / Real.pi) < (361 : ℤ) := by exact_mod_cast hlt
          have : pyRound (rad2 * 180 / Real.pi) ≤ (360 : ℤ) := by omega
          exact_mod_cast this

/-- Claim C7 counterexample: the angle function returns exactly 360 for the
point (10, -5) on the circle of radius 10 around the origin (rounded cosine
1, reflection from below), violating the half-open range; and it raises a
math domain error instead of clamping for the point (20, 0). -/
theorem C7_clamp_and_range_counterexample :
    get_arc_degrees ((10 : ℝ), (-5 : ℝ)) ((0 : ℝ), (0 : ℝ)) 10 = .ok 360 ∧
    get_arc_degrees ((20 : ℝ), (0 : ℝ)) ((0 : ℝ), (0 : ℝ)) 10 =
      .error PyErr.mathDomainError := by
  constructor
  · have hco : pyRound3 (((10 : ℝ) - 0) / 10) = 1 := by
      have h : pyRound ((((10 : ℝ) - 0) / 10) * 1000) = 1000 := by
        apply pyRound_eq_of_lt_half <;> norm_num
      simp only [pyRound3, h]
      norm_num
    rw [get_arc_degrees_eval ((10 : ℝ), (-5 : ℝ)) ((0 : ℝ), (0 : ℝ)) 10 1 (by norm_num)
      hco (by norm_num) (by norm_num)]
    rw [if_pos (by norm_num), Real.arccos_one]
    have hdeg : (2 * Real.pi - 0) * 180 / Real.pi = ((360 : ℤ) : ℝ) := by
      have hpi := Real.pi_ne_zero
      push_cast
      field_simp
      ring
    rw [hdeg, pyRound0_eval _ 360 (pyRound_intCast 360)]
    norm_num
  · have hco : pyRound3 (((20 : ℝ) - 0) / 10) = 2 := by
      have h : pyRound ((((20 : ℝ) - 0) / 10) * 1000) = 2000 := by
        apply pyRound_eq_of_lt_half <;> norm_num
      simp only [pyRound3, h]
      norm_num
    simp only [get_arc_degrees, hco]
    rw [if_neg (by norm_num), if_pos (by norm_num)]

/-- Claim C7 witness: the amended statement applied to the point (10, 0) on
the circle of radius 10 around the origin. -/
theorem C7_witness :
    ∃ v, get_arc_degrees ((10 : ℝ), (0 : ℝ)) ((0 : ℝ), (0 : ℝ)) 10 = .ok v ∧
      0 ≤ v ∧ v ≤ 360 := by
  have hco : pyRound3 (((10 : ℝ) - 0) / 10) = 1 := by
    have h : pyRound ((((10 : ℝ) - 0) / 10) * 1000) = 1000 := by
      apply pyRound_eq_of_lt_half <;> norm_num
    simp only [pyRound3, h]
    norm_num
  exact C7_angle_in_closed_range_without_clamp ((10 : ℝ), (0 : ℝ)) ((0 : ℝ), (0 : ℝ)) 10
    (by norm_num)
    (by show (-1 : ℝ) ≤ pyRound3 (((10 : ℝ) - 0) / 10); rw [hco]; norm_num)
    (by show pyRound3 (((10 : ℝ) - 0) / 10) ≤ 1; rw [hco])

/-- Claim C10 (confirmed): the height actually used is the input rounded to
a whole number (differing from the input by at most one half); only when the
rounded value is non-positive is the default 25 used, with the diagnostic
emitted. -/
theorem C10_height_rounded_then_defaulted (zs : ℝ) :
    (0 < pyRound zs → convert_input_zsafety zs = (((pyRound zs : ℤ) : ℝ), false) ∧
      |((pyRound zs : ℤ) : ℝ) - zs| ≤ 1/2) ∧
    (pyRound zs ≤ 0 → convert_input_zsafety zs = (25, true)) := by
  constructor
  · intro hpos
    refine ⟨?_, abs_pyRound_sub_le zs⟩
    simp only [convert_input_zsafety, pyRound0]
    rw [if_neg]
    push_neg
    exact_mod_cast hpos
  · intro hle
    simp only [convert_input_zsafety, pyRound0]
    rw [if_pos (by exact_mod_cast hle)]

/-- Claim C10 witness: the configured height 12.6 is used as 13, with no
diagnostic, and 13 is within one half of 12.6. -/
theorem C10_witness : convert_input_zsafety (12.6 : ℝ) = (13, false) ∧
    |(13 : ℝ) - 12.6| ≤ 1/2 := by
  have hr : pyRound (12.6 : ℝ) = 13 := by
    have h := pyRound_eq_of_gt_half 12 (12.6 : ℝ) (by norm_num) (by norm_num)
    rw [h]
    decide
  have hmain := (C10_height_rounded_then_defaulted (12.6 : ℝ)).1 (by rw [hr]; norm_num)
  rw [hr] at hmain
  constructor
  · have h1 := hmain.1
    exact_mod_cast h1
  · have h2 := hmain.2
    exact_mod_cast h2

/-! ### Index bookkeeping for the extreme-value lookup -/

/-- The index returned by idxMinBy is in range and addresses an element
whose key is the reported value. -/
theorem idxMinBy_spec (key : Point → ℝ) (l : List Point) (k : ℕ) (v : ℝ)
    (h : idxMinBy key l = some (k, v)) :
    k < l.length ∧ ∃ p, l.get? k = some p ∧ key p = v := by
  induction l generalizing k v with
  | nil => simp [idxMinBy] at h
  | cons p t ih =>
    rw [idxMinBy] at h
    cases ht : idxMinBy key t with
    | none =>
      rw [ht] at h
      simp only [Option.some.injEq, Prod.mk.injEq] at h
      obtain ⟨hk, hv⟩ := h
      subst hk
      subst hv
      exact ⟨by simp, p, by simp, rfl⟩
    | some kv =>
      rw [ht] at h
      obtain ⟨k', v'⟩ := kv
      dsimp only at h
      split_ifs at h with hlt <;>
        simp only [Option.some.injEq, Prod.mk.injEq] at h <;>
        obtain ⟨hk, hv⟩ := h
      · subst hk
        subst hv
        obtain ⟨hlen, q, hq, hkey⟩ := ih k' v' ht
        exact ⟨by simpa using hlen, q, by simpa using hq, hkey⟩
      · subst hk
        subst hv
        exact ⟨by simp, p, by simp, rfl⟩

/-- The index returned by idxMaxBy is in range and addresses an element
whose key is the reported value. -/
theorem idxMaxBy_spec (key : Point → ℝ) (l : List Point) (k : ℕ) (v : ℝ)
    (h : idxMaxBy key l = some (k, v)) :
    k < l.length ∧ ∃ p, l.get? k = some p ∧ key p = v := by
  induction l generalizing k v with
  | nil => simp [idxMaxBy] at h
  | cons p t ih =>
    rw [idxMaxBy] at h
    cases ht : idxMaxBy key t with
    | none =>
      rw [ht] at h
      simp only [Option.some.injEq, Prod.mk.injEq] at h
      obtain ⟨hk, hv⟩ := h
      subst hk
      subst hv
      exact ⟨by simp, p, by simp, rfl⟩
    | some kv =>
      rw [ht] at h
      obtain ⟨k', v'⟩ := kv
      dsimp only at h
      split_ifs at h with hlt <;>
        simp only [Option.some.injEq, Prod.mk.injEq] at h <;>
        obtain ⟨hk, hv⟩ := h
      · subst hk
        subst hv
        obtain ⟨hlen, q, hq, hkey⟩ := ih k' v' ht
        exact ⟨by simpa using hlen, q, by simpa using hq, hkey⟩
      · subst hk
        subst hv
        exact ⟨by simp, p, by simp, rfl⟩

/-- A nonempty list has a minimal element. -/
theorem idxMinBy_of_ne_nil (key : Point → ℝ) (l : List Point) (h : l ≠ []) :
    ∃ k v, idxMinBy key l = some (k, v) := by
  cases l with
  | nil => exact absurd rfl h
  | cons p t =>
    rw [idxMinBy]
    cases ht : idxMinBy key t with
    | none => exact ⟨0, key p, rfl⟩
    | some kv =>
      obtain ⟨k', v'⟩ := kv
      by_cases hlt : v' < key p
      · exact ⟨k' + 1, v', by dsimp only; rw [if_pos hlt]⟩
      · exact ⟨0, key p, by dsimp only; rw [if_neg hlt]⟩

/-- A nonempty list has a maximal element. -/
theorem idxMaxBy_of_ne_nil (key : Point → ℝ) (l : List Point) (h : l ≠ []) :
    ∃ k v, idxMaxBy key l = some (k, v) := by
  cases l with
  | nil => exact absurd rfl h
  | cons p t =>
    rw [idxMaxBy]
    cases ht : idxMaxBy key t with
    | none => exact ⟨0, key p, rfl⟩
    | some kv =>
      obtain ⟨k', v'⟩ := kv
      by_cases hlt : key p < v'
      · exact ⟨k' + 1, v', by dsimp only; rw [if_pos hlt]⟩
      · exact ⟨0, key p, by dsimp only; rw [if_neg hlt]⟩

/-- Overwriting one z slot keeps the length. -/
theorem setPointZ_length (l : List Point) (idx : ℕ) (z : ℝ) :
    (setPointZ l idx z).length = l.length := by
  induction l generalizing idx with
  | nil => simp [setPointZ]
  | cons p t ih =>
    cases idx with
    | zero => simp [setPointZ]
    | succ n => simp [setPointZ, ih n]

/-- Overwriting one z slot leaves the other positions unchanged. -/
theorem setPointZ_get_ne (l : List Point) (idx : ℕ) (z : ℝ) (jj : ℕ) (hne : jj ≠ idx) :
    (setPointZ l idx z).get? jj = l.get? jj := by
  induction l generalizing idx jj with
  | nil => simp [setPointZ]
  | cons p t ih =>
    cases idx with
    | zero =>
      cases jj with
      | zero => exact absurd rfl hne
      | succ m => simp [setPointZ]
    | succ n =>
      cases jj with
      | zero => simp [setPointZ]
      | succ m =>
        simp only [setPointZ, List.get?_cons_succ]
        exact ih n m (by omega)

/-- Overwriting one z slot changes exactly the z of that position. -/
theorem setPointZ_get_eq (l : List Point) (idx : ℕ) (z : ℝ) (p : Point)
    (h : l.get? idx = some p) :
    (setPointZ l idx z).get? idx = some (p.1, p.2.1, z) := by
  induction l generalizing idx with
  | nil => simp at h
  | cons q t ih =>
    cases idx with
    | zero =>
      simp only [List.get?_cons_zero, Option.some.injEq] at h
      subst h
      simp [setPointZ]
    | succ n =>
      simp only [List.get?_cons_succ] at h
      simp only [setPointZ, List.get?_cons_succ]
      exact ih n h

/-- Claim C8 (corrected): the Zmin lookup leaves the data unchanged, but for
each of Ymin, Xmin, Ymax, Xmax the lookup overwrites the z slot of the first
point attaining the extreme with zsafety inside the input list (the source
assigns through the reference that min or max returned); every other point
is unchanged, so the computation is not a pure reduction. -/
theorem C8_extreme_lookup_mutates_selected_point (data : List Point) (zsafety : ℝ)
    (hne : data ≠ []) :
    (∃ out, get_extreme_value "Zmin" data zsafety = .ok (out, data)) ∧
    (∀ axis, axis ∈ (["Ymin", "Xmin", "Ymax", "Xmax"] : List String) →
      ∃ out data' idx p, idx < data.length ∧ data.get? idx = some p ∧
        get_extreme_value axis data zsafety = .ok (out, data') ∧
        data'.length = data.length ∧
        (∀ jj, jj ≠ idx → data'.get? jj = data.get? jj) ∧
        data'.get? idx = some (p.1, p.2.1, zsafety)) := by
  constructor
  · obtain ⟨k, v, hkv⟩ := idxMinBy_of_ne_nil (fun p => col p 2) data hne
    refine ⟨ExtremeOut.zminMsg (pyRound3 (((data.get? k).getD (0, 0, 0)).2.2)), ?_⟩
    simp only [get_extreme_value, if_pos rfl, get_min_by_column, hkv]
    simp
  · intro axis haxis
    simp only [List.mem_cons, List.mem_singleton, List.not_mem_nil, or_false] at haxis
    rcases haxis with rfl | rfl | rfl | rfl
    · obtain ⟨k, v, hkv⟩ := idxMinBy_of_ne_nil (fun p => col p 1) data hne
      obtain ⟨hk, p, hget, -⟩ := idxMinBy_spec _ _ _ _ hkv
      refine ⟨ExtremeOut.coords (pyRound3 p.1) (pyRound3 p.2.1) (pyRound3 zsafety),
        setPointZ data k zsafety, k, p, hk, hget, ?_, setPointZ_length data k zsafety,
        fun jj hjj => setPointZ_get_ne data k zsafety jj hjj,
        setPointZ_get_eq data k zsafety p hget⟩
      have hget2 : data[k]? = some p := by
        rw [← List.get?_eq_getElem?]
        exact hget
      simp only [get_extreme_value, hkv]
      rw [if_neg (by decide)]
      simp [hget, hget2]
    · obtain ⟨k, v, hkv⟩ := idxMinBy_of_ne_nil (fun p => col p 0) data hne
      obtain ⟨hk, p, hget, -⟩ := idxMinBy_spec _ _ _ _ hkv
      refine ⟨ExtremeOut.coords (pyRound3 p.1) (pyRound3 p.2.1) (pyRound3 zsafety),
        setPointZ data k zsafety, k, p, hk, hget, ?_, setPointZ_length data k zsafety,
        fun jj hjj => setPointZ_get_ne data k zsafety jj hjj,
        setPointZ_get_eq data k zsafety p hget⟩
      have hget2 : data[k]? = some p := by
        rw [← List.get?_eq_getElem?]
        exact hget
      simp only [get_extreme_value, hkv]
      rw [if_neg (by decide)]
      simp [hget, hget2]
    · obtain ⟨k, v, hkv⟩ := idxMaxBy_of_ne_nil (fun p => col p 1) data hne
      obtain ⟨hk, p, hget, -⟩ := idxMaxBy_spec _ _ _ _ hkv
      refine ⟨ExtremeOut.coords (pyRound3 p.1) (pyRound3 p.2.1) (pyRound3 zsafety),
        setPointZ data k zsafety, k, p, hk, hget, ?_, setPointZ_length data k zsafety,
        fun jj hjj => setPointZ_get_ne data k zsafety jj hjj,
        setPointZ_get_eq data k zsafety p hget⟩
      have hget2 : data[k]? = some p := by
        rw [← List.get?_eq_getElem?]
        exact hget
      simp only [get_extreme_value, hkv]
      rw [if_neg (by decide)]
      simp [hget, hget2]
    · obtain ⟨k, v, hkv⟩ := idxMaxBy_of_ne_nil (fun p => col p 0) data hne
      obtain ⟨hk, p, hget, -⟩ := idxMaxBy_spec _ _ _ _ hkv
      refine ⟨ExtremeOut.coords (pyRound3 p.1) (pyRound3 p.2.1) (pyRound3 zsafety),
        setPointZ data k zsafety, k, p, hk, hget, ?_, setPointZ_length data k zsafety,
        fun jj hjj => setPointZ_get_ne data k zsafety jj hjj,
        setPointZ_get_eq data k zsafety p hget⟩
      have hget2 : data[k]? = some p := by
        rw [← List.get?_eq_getElem?]
        exact hget
      simp only [get_extreme_value, hkv]
      rw [if_neg (by decide)]
      simp [hget, hget2]

/-- Claim C8 counterexample: the Ymin lookup on the two points (0, 0, 7) and
(1, 1, 9) with zsafety 25 overwrites the z of the first point inside the
input: the returned data differs from the input, so the points are not left
unchanged. -/
theorem C8_purity_counterexample :
    get_extreme_value "Ymin" [((0 : ℝ), (0 : ℝ), (7 : ℝ)), ((1 : ℝ), (1 : ℝ), (9 : ℝ))] 25 =
      .ok (ExtremeOut.coords 0 0 25,
        [((0 : ℝ), (0 : ℝ), (25 : ℝ)), ((1 : ℝ), (1 : ℝ), (9 : ℝ))]) ∧
    ([((0 : ℝ), (0 : ℝ), (25 : ℝ)), ((1 : ℝ), (1 : ℝ), (9 : ℝ))] : List Point) ≠
      [((0 : ℝ), (0 : ℝ), (7 : ℝ)), ((1 : ℝ), (1 : ℝ), (9 : ℝ))] := by
  have hround0 : pyRound3 (0 : ℝ) = 0 := by
    have h : pyRound ((0 : ℝ) * 1000) = 0 := by
      apply pyRound_eq_of_lt_half <;> norm_num
    simp only [pyRound3, h]
    norm_num
  have hround25 : pyRound3 (25 : ℝ) = 25 := by
    have h : pyRound ((25 : ℝ) * 1000) = 25000 := by
      apply pyRound_eq_of_lt_half <;> norm_num
    simp only [pyRound3, h]
    norm_num
  have hkv : idxMinBy (fun p => col p 1)
      [((0 : ℝ), (0 : ℝ), (7 : ℝ)), ((1 : ℝ), (1 : ℝ), (9 : ℝ))] = some (0, 0) := by
    simp only [idxMinBy, col]
    rw [if_neg (by norm_num)]
  constructor
  · simp only [get_extreme_value, hkv]
    rw [if_neg (by decide)]
    simp [setPointZ, hround0, hround25]
  · simp only [ne_eq, List.cons.injEq, Prod.mk.injEq]
    intro h
    exact absurd h.1.2.2 (by norm_num)

/-- Claim C8 witness: the amended statement applied to the one-point data
set holding (0, 0, 7) with zsafety 25. -/
theorem C8_witness :
    (∃ out, get_extreme_value "Zmin" [((0 : ℝ), (0 : ℝ), (7 : ℝ))] 25 =
      .ok (out, [((0 : ℝ), (0 : ℝ), (7 : ℝ))])) ∧
    (∀ axis, axis ∈ (["Ymin", "Xmin", "Ymax", "Xmax"] : List String) →
      ∃ out data' idx p, idx < [((0 : ℝ), (0 : ℝ), (7 : ℝ))].length ∧
        [((0 : ℝ), (0 : ℝ), (7 : ℝ))].get? idx = some p ∧
        get_extreme_value axis [((0 : ℝ), (0 : ℝ), (7 : ℝ))] 25 = .ok (out, data') ∧
        data'.length = [((0 : ℝ), (0 : ℝ), (7 : ℝ))].length ∧
        (∀ jj, jj ≠ idx → data'.get? jj = [((0 : ℝ), (0 : ℝ), (7 : ℝ))].get? jj) ∧
        data'.get? idx = some (p.1, p.2.1, 25)) :=
  C8_extreme_lookup_mutates_selected_point [((0 : ℝ), (0 : ℝ), (7 : ℝ))] 25 (by simp)

/-- Claim C4 (corrected): for a positive radius, a cardinal angle a among
90, 180, 270, 360 contributes its cardinal point exactly when
int(arc_start) <= a < int(arc_end) holds for the angles the code computed,
which are already rounded to whole degrees (after rounding the cosine to
three decimals) with the wraparound applied to the rounded values - an
integer comparison, not the continuous comparison the claim states. -/
theorem C4_inclusion_iff_truncated_rounded_bounds
    (s e x_center y_center radius z : ℝ) (a : ℤ)
    (hr : 0 < radius) (ha : a ∈ ([90, 180, 270, 360] : List ℤ)) :
    cardinal_point x_center y_center radius z a ∈
      arc_cardinal_points s e x_center y_center radius z ↔
      (pyInt s ≤ a ∧ a < pyInt e) := by
  simp only [arc_cardinal_points, List.mem_map, List.mem_filter, decide_eq_true_eq]
  constructor
  · rintro ⟨b, ⟨hb, hcond⟩, heq⟩
    have hba : b = a := by
      fin_cases ha <;> fin_cases hb <;>
        simp_all [cardinal_point, Prod.ext_iff] <;> linarith
    rw [hba] at hcond
    exact hcond
  · intro hcond
    exact ⟨a, ⟨ha, hcond⟩, rfl⟩

/-- Claim C4 witness: the amended statement applied to the sweep from 0 to
360 on the unit circle at the cardinal angle 90. -/
theorem C4_witness :
    cardinal_point 0 0 1 0 90 ∈ arc_cardinal_points 0 360 0 0 1 0 ↔
      (pyInt 0 ≤ (90 : ℤ) ∧ (90 : ℤ) < pyInt 360) :=
  C4_inclusion_iff_truncated_rounded_bounds 0 360 0 0 1 0 90 (by norm_num) (by decide)

/-- Claim C4 counterexample: for the arc G03 X-2499 Y1 I1 J-2500 from
previous position (0, 2500, 0), the code emits the 90-degree cardinal point
(its rounded start angle is 90), yet the continuous start angle of the spec
exceeds 90, so under the continuous rule startAngle <= 90 fails and the
point must not be contributed: the code and the continuous half-open rule
disagree. -/
theorem C4_continuous_rule_counterexample :
    handle_arc_move_ij "G03 X-2499 Y1 I1 J-2500" ((0 : ℝ), (2500 : ℝ), (0 : ℝ))
        ((0 : ℝ), (0 : ℝ), (0 : ℝ)) =
      .ok [((1 : ℝ), Real.sqrt 6250001, (0 : ℝ)), ((-2499 : ℝ), (1 : ℝ), (0 : ℝ))] ∧
    90 < angle_spec ((0 : ℝ), (2500 : ℝ)) ((1 : ℝ), (0 : ℝ)) (Real.sqrt 6250001) := by
  set r := Real.sqrt 6250001 with hrdef
  have h1 : (2500 : ℝ) < r := by
    rw [hrdef, Real.lt_sqrt (by norm_num)]
    norm_num
  have h2 : r < 2501 := by
    rw [hrdef, Real.sqrt_lt' (by norm_num)]
    norm_num
  have hrpos : (0 : ℝ) < r := by linarith
  constructor
  · have hp : parse_coordinates "G03 X-2499 Y1 I1 J-2500" =
        .ok ⟨some (-2499), some 1, none, some 1, some (-2500)⟩ := by decide
    have hncw : ¬(pyFind "G03 X-2499 Y1 I1 J-2500" "G02" > -1 ∨
        pyFind "G03 X-2499 Y1 I1 J-2500" "G2 " > -1) := by decide
    have hccw : pyFind "G03 X-2499 Y1 I1 J-2500" "G03" > -1 ∨
        pyFind "G03 X-2499 Y1 I1 J-2500" "G3 " > -1 := Or.inl (by decide)
    have hrad : Real.sqrt (((1 : ℚ) : ℝ) ^ 2 + (((-2500 : ℚ)) : ℝ) ^ 2) = r := by
      rw [hrdef,
        show ((1 : ℚ) : ℝ) ^ 2 + (((-2500 : ℚ)) : ℝ) ^ 2 = (6250001 : ℝ) by push_cast; norm_num]
    have hfill : fill_coordinates ⟨some (-2499), some 1, none, some 1, some (-2500)⟩
        ((0 : ℝ), (2500 : ℝ), (0 : ℝ)) ((0 : ℝ), (0 : ℝ), (0 : ℝ)) = (-2499, 1, 0) := by
      simp [fill_coordinates]
    have hcx : (0 : ℝ) + ((1 : ℚ) : ℝ) = 1 := by push_cast; norm_num
    have hcy : (2500 : ℝ) + (((-2500 : ℚ)) : ℝ) = 0 := by push_cast; norm_num
    have hstart : get_arc_degrees ((0 : ℝ), (2500 : ℝ)) ((1 : ℝ), (0 : ℝ)) r = .ok 90 := by
      have hv : (((0 : ℝ) - 1) / r) * 1000 = -1000 / r := by ring
      have hlow : (-1 : ℝ) + 1 / 2 < -1000 / r := by
        have hlt : (1000 : ℝ) / r < 1 / 2 := by
          rw [div_lt_div_iff₀ hrpos (by norm_num)]
          linarith
        rw [neg_div]
        linarith
      have hhigh : -1000 / r < (-1 : ℝ) + 1 := by
        have hps : (0 : ℝ) < 1000 / r := by positivity
        rw [neg_div]
        linarith
      have hco : pyRound3 (((0 : ℝ) - 1) / r) = 0 := by
        have h := pyRound_eq_of_gt_half (-1) ((((0 : ℝ) - 1) / r) * 1000)
          (by rw [hv]; push_cast; linarith) (by rw [hv]; push_cast; linarith)
        simp only [pyRound3, h]
        norm_num
      rw [get_arc_degrees_eval ((0 : ℝ), (2500 : ℝ)) ((1 : ℝ), (0 : ℝ)) r 0 hrpos hco
        (by norm_num) (by norm_num)]
      rw [if_neg (by norm_num), Real.arccos_zero]
      have hdeg : Real.pi / 2 * 180 / Real.pi = (90 : ℝ) := by
        have hpi := Real.pi_ne_zero
        field_simp
        ring
      have hpr : pyRound0 ((90 : ℝ)) = 90 := by
        have h := pyRound_eq_of_lt_half 90 (90 : ℝ) (by norm_num) (by norm_num)
        simp only [pyRound0, h]
        norm_num
      rw [hdeg, hpr]
    have hend : get_arc_degrees ((-2499 : ℝ), (1 : ℝ)) ((1 : ℝ), (0 : ℝ)) r = .ok 180 := by
      have hv : (((-2499 : ℝ) - 1) / r) * 1000 = -2500000 / r := by ring
      have hlow : ((-1000 : ℤ) : ℝ) ≤ -2500000 / r := by
        have hle : (2500000 : ℝ) / r ≤ 1000 := by
          rw [div_le_iff₀ hrpos]
          linarith
        push_cast
        rw [neg_div]
        linarith
      have hhigh : -2500000 / r < ((-1000 : ℤ) : ℝ) + 1 / 2 := by
        have hgt : (1999 : ℝ) / 2 < 2500000 / r := by
          rw [div_lt_div_iff₀ (by norm_num) hrpos]
          nlinarith
        push_cast
        rw [neg_div]
        linarith
      have hco : pyRound3 (((-2499 : ℝ) - 1) / r) = -1 := by
        have h := pyRound_eq_of_lt_half (-1000) ((((-2499 : ℝ) - 1) / r) * 1000)
          (by rw [hv]; exact hlow) (by rw [hv]; exact hhigh)
        simp only [pyRound3, h]
        norm_num
      rw [get_arc_degrees_eval ((-2499 : ℝ), (1 : ℝ)) ((1 : ℝ), (0 : ℝ)) r (-1) hrpos hco
        (by norm_num) (by norm_num)]
      rw [if_neg (by norm_num), Real.arccos_neg_one]
      have hdeg : Real.pi * 180 / Real.pi = (180 : ℝ) := by
        have hpi := Real.pi_ne_zero
        field_simp
      have hpr : pyRound0 ((180 : ℝ)) = 180 := by
        have h := pyRound_eq_of_lt_half 180 (180 : ℝ) (by norm_num) (by norm_num)
        simp only [pyRound0, h]
        norm_num
      rw [hdeg, hpr]
    have hint90 : pyInt ((90 : ℝ)) = 90 := by
      have := pyInt_intCast 90
      simpa using this
    have hint180 : pyInt ((180 : ℝ)) = 180 := by
      have := pyInt_intCast 180
      simpa using this
    have hacp : arc_cardinal_points 90 180 1 0 r 0 = [(1, 0 + r, 0)] := by
      simp only [arc_cardinal_points, hint90, hint180]
      norm_num [cardinal_point]
    simp only [handle_arc_move_ij, hp, hrad, hcx, hcy, hfill]
    rw [if_neg hncw, if_pos hccw]
    simp only [hstart, hend]
    rw [if_neg (by norm_num)]
    simp [hacp]
  · have hval : (0 : ℝ) - 1 = -1 := by norm_num
    have h1r : (1 : ℝ) / r ≤ 1 := by
      rw [div_le_one hrpos]
      linarith
    have hm1r : (-1 : ℝ) / r < 0 := by
      have h0 : (0 : ℝ) < 1 / r := by positivity
      rw [neg_div]
      linarith
    have hcl : max (-1) (min 1 (((0 : ℝ) - 1) / r)) = -1 / r := by
      rw [hval]
      rw [min_eq_right (by linarith), max_eq_right (by rw [neg_div]; linarith)]
    have harccos : Real.pi / 2 < Real.arccos (-1 / r) := by
      rw [Real.arccos_eq_pi_div_two_sub_arcsin]
      have hneg : Real.arcsin (-1 / r) < 0 := by
        rw [Real.arcsin_lt_zero]
        exact hm1r
      linarith
    have hq : (0 : ℝ) < 180 / Real.pi := by positivity
    have hmul := mul_lt_mul_of_pos_right harccos hq
    have h90 : Real.pi / 2 * (180 / Real.pi) = 90 := by
      have hpi := Real.pi_ne_zero
      field_simp
      ring
    rw [h90] at hmul
    simp only [angle_spec, hcl]
    rw [if_neg (by norm_num), mul_div_assoc]
    exact hmul
